import Mathlib

/-!
Verification of pyguilib: a shallow embedding of the library's core data
model and algorithms (widget geometry, property overrides, redraw block
counter, hook registration, rename, action dispatch, list layout,
quadtree, tween easing), with theorems settling the specification's
claims against the embedded code.

Numeric modelling: Python floats are modelled as exact rationals for the
geometry/layout/service code (all operations used there are field
operations and comparisons) and as reals for the easing curves (which
use sin/cos/sqrt/pi and real exponentiation).
-/

namespace PyGuiLib

/-- One-dimensional scale+offset measurement, from `pyguilib/utilities/udim.py`
(`UDim(scale, offset)`). -/
structure UDim where
  scale : ℚ
  offset : ℚ
  deriving DecidableEq

/-- Two-dimensional measurement, from `udim.py` (`UDim2` holds an x and a y
`UDim`; the Python constructor takes `(scale_x, offset_x, scale_y, offset_y)`). -/
structure UDim2 where
  x : UDim
  y : UDim
  deriving DecidableEq

/-- A 2D vector of rationals, modelling `pygame.Vector2`. -/
structure Vector2 where
  x : ℚ
  y : ℚ
  deriving DecidableEq

/-- The geometric state of one `PyGuiInstance`: the stored base fields
`_position`, `_size`, `_anchor_point`, together with the entries of
`_properties_overrides` for these three property names (absent entry =
`none`).  From `pyguilib/components/pygui_instance.py`. -/
structure GuiProps where
  position : UDim2
  size : UDim2
  anchor_point : Vector2
  position_override : Option UDim2
  size_override : Option UDim2
  anchor_point_override : Option Vector2
  deriving DecidableEq

/-- A widget together with its chain of ancestors.  In
`pygui_instance.py` every instance has an optional `_parent`; a widget
with no parent reads the display surface for the parent geometry. -/
inductive PyGuiInstance where
  | top (props : GuiProps)
  | child (parent : PyGuiInstance) (props : GuiProps)
  deriving DecidableEq

namespace PyGuiInstance

/-- The widget's own `GuiProps`. -/
def props : PyGuiInstance → GuiProps
  | .top p => p
  | .child _ p => p

/-- The `position` property getter:
`self._get_overrided_property("position") or self._position`.
A stored override is a `UDim2` object, which is always truthy in Python,
so the `or` returns the override exactly when one is present. -/
def positionProp (w : PyGuiInstance) : UDim2 :=
  w.props.position_override.getD w.props.position

/-- The `size` property getter:
`self._get_overrided_property("size") or self._size`. -/
def sizeProp (w : PyGuiInstance) : UDim2 :=
  w.props.size_override.getD w.props.size

/-- The `anchor_point` property getter:
`self._get_overrided_property("anchor_point") or self._anchor_point`. -/
def anchorProp (w : PyGuiInstance) : Vector2 :=
  w.props.anchor_point_override.getD w.props.anchor_point

/-- `PyGuiInstance.absolute_size` (pygui_instance.py lines 397-410):
`parent_absolute_size = parent.absolute_size if parent else display size`;
result is `(parent_absolute_size.x * size.x.scale + size.x.offset,
parent_absolute_size.y * size.y.scale + size.y.offset)`.
`screen` is the size of `pygame.display.get_surface()`. -/
def absolute_size (screen : Vector2) : PyGuiInstance → Vector2
  | .top p =>
      ⟨screen.x * (p.size_override.getD p.size).x.scale + (p.size_override.getD p.size).x.offset,
       screen.y * (p.size_override.getD p.size).y.scale + (p.size_override.getD p.size).y.offset⟩
  | .child parent p =>
      let ps := absolute_size screen parent
      ⟨ps.x * (p.size_override.getD p.size).x.scale + (p.size_override.getD p.size).x.offset,
       ps.y * (p.size_override.getD p.size).y.scale + (p.size_override.getD p.size).y.offset⟩

/-- `PyGuiInstance.absolute_position` (pygui_instance.py lines 365-379):
`parent_absolute_position = parent.absolute_position if parent else (0, 0)`;
`parent_absolute_size = parent.absolute_size if parent else display size`;
result is `(parent_absolute_position + parent_absolute_size * position.scale
+ position.offset) - absolute_size * anchor_point`, componentwise. -/
def absolute_position (screen : Vector2) : PyGuiInstance → Vector2
  | .top p =>
      ⟨(0 + screen.x * (p.position_override.getD p.position).x.scale
          + (p.position_override.getD p.position).x.offset)
         - (absolute_size screen (.top p)).x * (p.anchor_point_override.getD p.anchor_point).x,
       (0 + screen.y * (p.position_override.getD p.position).y.scale
          + (p.position_override.getD p.position).y.offset)
         - (absolute_size screen (.top p)).y * (p.anchor_point_override.getD p.anchor_point).y⟩
  | .child parent p =>
      let pp := absolute_position screen parent
      let ps := absolute_size screen parent
      ⟨(pp.x + ps.x * (p.position_override.getD p.position).x.scale
             + (p.position_override.getD p.position).x.offset)
         - (absolute_size screen (.child parent p)).x * (p.anchor_point_override.getD p.anchor_point).x,
       (pp.y + ps.y * (p.position_override.getD p.position).y.scale
             + (p.position_override.getD p.position).y.offset)
         - (absolute_size screen (.child parent p)).y * (p.anchor_point_override.getD p.anchor_point).y⟩

end PyGuiInstance

/-- Helper to build a `GuiProps` with no overrides, as after `__init__`
(where `_properties_overrides` starts empty). -/
def mkProps (position size : UDim2) (anchor_point : Vector2) : GuiProps :=
  ⟨position, size, anchor_point, none, none, none⟩

/-- A concrete 3-level tree with mixed scale/offset values (screen 800x600). -/
def demoA : PyGuiInstance :=
  .top (mkProps ⟨⟨1/2, 10⟩, ⟨1/4, -5⟩⟩ ⟨⟨1/2, 20⟩, ⟨1/2, 0⟩⟩ ⟨0, 0⟩)

/-- Middle level of the demo tree. -/
def demoB : PyGuiInstance :=
  .child demoA (mkProps ⟨⟨1/4, -10⟩, ⟨0, 30⟩⟩ ⟨⟨1/2, 0⟩, ⟨1/3, 6⟩⟩ ⟨1/2, 1/2⟩)

/-- Grandchild level of the demo tree. -/
def demoG : PyGuiInstance :=
  .child demoB (mkProps ⟨⟨1, 0⟩, ⟨1/2, 5⟩⟩ ⟨⟨1/4, 8⟩, ⟨1/2, -2⟩⟩ ⟨1, 0⟩)

/-- Screen size for the demo tree. -/
def demoScreen : Vector2 := ⟨800, 600⟩

/-- C1: for every widget, `absolute_size` is derived (not stored) as the
parent's absolute size times the widget's `size.scale` plus `size.offset`
per axis, and `absolute_position` is the parent's absolute position plus
the parent's absolute size times the position scale plus the position
offset, minus the widget's own absolute size scaled by its anchor point,
per axis — at every depth of the parent chain; and on a concrete 3-level
tree with mixed scale/offset values the derived geometry takes the
expected values. -/
theorem absolute_geometry_derived :
    (∀ (screen : Vector2) (parent : PyGuiInstance) (p : GuiProps),
      PyGuiInstance.absolute_size screen (.child parent p) =
        ⟨(PyGuiInstance.absolute_size screen parent).x * (PyGuiInstance.child parent p).sizeProp.x.scale
            + (PyGuiInstance.child parent p).sizeProp.x.offset,
         (PyGuiInstance.absolute_size screen parent).y * (PyGuiInstance.child parent p).sizeProp.y.scale
            + (PyGuiInstance.child parent p).sizeProp.y.offset⟩) ∧
    (∀ (screen : Vector2) (parent : PyGuiInstance) (p : GuiProps),
      PyGuiInstance.absolute_position screen (.child parent p) =
        ⟨(PyGuiInstance.absolute_position screen parent).x
            + (PyGuiInstance.absolute_size screen parent).x * (PyGuiInstance.child parent p).positionProp.x.scale
            + (PyGuiInstance.child parent p).positionProp.x.offset
            - (PyGuiInstance.absolute_size screen (.child parent p)).x * (PyGuiInstance.child parent p).anchorProp.x,
         (PyGuiInstance.absolute_position screen parent).y
            + (PyGuiInstance.absolute_size screen parent).y * (PyGuiInstance.child parent p).positionProp.y.scale
            + (PyGuiInstance.child parent p).positionProp.y.offset
            - (PyGuiInstance.absolute_size screen (.child parent p)).y * (PyGuiInstance.child parent p).anchorProp.y⟩) ∧
    (PyGuiInstance.absolute_size demoScreen demoB = ⟨210, 106⟩ ∧
     PyGuiInstance.absolute_position demoScreen demoB = ⟨400, 122⟩ ∧
     PyGuiInstance.absolute_size demoScreen demoG = ⟨121/2, 51⟩ ∧
     PyGuiInstance.absolute_position demoScreen demoG = ⟨1099/2, 180⟩) := by
  refine ⟨?_, ?_, ?_⟩
  · intro screen parent p
    simp [PyGuiInstance.absolute_size, PyGuiInstance.sizeProp, PyGuiInstance.props]
  · intro screen parent p
    simp [PyGuiInstance.absolute_position, PyGuiInstance.positionProp,
      PyGuiInstance.anchorProp, PyGuiInstance.props]
  · simp only [demoG, demoB, demoA, demoScreen, mkProps,
      PyGuiInstance.absolute_size, PyGuiInstance.absolute_position, Option.getD]
    norm_num [Vector2.mk.injEq]

/-! ## Property override layer (pygui_instance.py)

The `position` setter stores into `_position`; `_add_property_override`
stores into `_properties_overrides[name]`; `_remove_property_override`
does `del _properties_overrides[name]` (a `KeyError` when absent, hence
`Option`); the `position` getter reads override-if-present else base. -/

/-- The `position` setter body: `self._position = value`. -/
def set_position (p : GuiProps) (v : UDim2) : GuiProps :=
  { p with position := v }

/-- `_add_property_override("position", value)`:
`self._properties_overrides["position"] = value`. -/
def add_position_override (p : GuiProps) (v : UDim2) : GuiProps :=
  { p with position_override := some v }

/-- `_remove_property_override("position")`:
`del self._properties_overrides["position"]`; `none` models the
`KeyError` raised when no override is present. -/
def remove_position_override (p : GuiProps) : Option GuiProps :=
  match p.position_override with
  | some _ => some { p with position_override := none }
  | none => none

/-- The `position` getter on a bare property state (override layer). -/
def read_position (p : GuiProps) : UDim2 :=
  p.position_override.getD p.position

/-- C5: setting the base `position`, then adding a position override with
any value, then removing that override, leaves reads of `position`
returning exactly the previously-set base value (and the removal
succeeds, since the override is present). -/
theorem position_override_round_trip (p : GuiProps) (base v : UDim2) :
    (remove_position_override (add_position_override (set_position p base) v)).map
      read_position = some base := by
  simp [remove_position_override, add_position_override, set_position, read_position]

/-! ## Redraw block counter (pygui_instance.py lines 238-251) -/

/-- The `BLOCKING_SCREEN_BUFFER_UPDATE` setter body:
`parent._BLOCKING_SCREEN_BUFFER_UPDATE =
max(0, parent._BLOCKING_SCREEN_BUFFER_UPDATE + (1 if value else -1))`. -/
def blocking_screen_buffer_update_set (counter : ℤ) (value : Bool) : ℤ :=
  max 0 (counter + (if value then 1 else -1))

/-- C10: every assignment through the `BLOCKING_SCREEN_BUFFER_UPDATE`
setter clamps the parent's counter at zero (the result is never
negative), and in particular assigning `False` when the counter is
already 0 leaves it 0. -/
theorem blocking_counter_nonneg :
    (∀ (counter : ℤ) (value : Bool),
      0 ≤ blocking_screen_buffer_update_set counter value) ∧
    blocking_screen_buffer_update_set 0 false = 0 := by
  refine ⟨fun counter value => le_max_left 0 _, by decide⟩

/-! ## Updater/drawer hook registration (pygui_instance.py lines 144-148)

`_add_instance_updater_handler(handler, index=0)` does
`self.__instance_updaters.insert(index, handler)`; `update` then invokes
the handlers in list order (lines 478-479), and `draw` likewise iterates
`__instance_drawers` in list order (lines 517-518).  The hook list is
modelled as a list of handler identifiers; the invocation order is the
list order. -/

/-- `list.insert(index, handler)` on the hook list. -/
def add_instance_handler {H : Type} (handlers : List H) (handler : H) (index : ℕ) : List H :=
  handlers.insertIdx index handler

/-- Registering a sequence of handlers through the default registration
call (`index = 0`), starting from the empty hook list of `__init__`. -/
def register_handlers {H : Type} (registrations : List H) : List H :=
  registrations.foldl (fun hs h => add_instance_handler hs h 0) []

/-- C8 counterexample: registering handler `0` then handler `1` with the
default registration call yields the invocation order `[1, 0]`, not the
registration order `[0, 1]`: the second-registered hook runs first. -/
theorem hook_order_counterexample :
    register_handlers [0, 1] = [1, 0] ∧ register_handlers [0, 1] ≠ [0, 1] := by
  constructor <;> decide

/-- C8 amended: hooks registered through the default registration call
are invoked in reverse registration order (each default call inserts at
index 0, prepending to the hook list), for every registration sequence. -/
theorem hook_order_reversed {H : Type} (registrations : List H) :
    register_handlers registrations = registrations.reverse := by
  suffices h : ∀ (acc : List H),
      registrations.foldl (fun hs h => add_instance_handler hs h 0) acc =
        registrations.reverse ++ acc by
    simpa using h []
  induction registrations with
  | nil => intro acc; simp [register_handlers]
  | cons a l ih =>
      intro acc
      simp [register_handlers, add_instance_handler, List.insertIdx_zero, ih]

/-! ## Renaming (pygui_instance.py lines 467-469)

The `name` setter body is
`self._parent._childrens[value] = self._parent._childrens.pop(self._name)`.
`_childrens` is a Python dict (string key, insertion-ordered), modelled
as an association list with unique keys.  `pop` raises `KeyError` when
the old name is absent (hence `Option`); dict assignment replaces the
value in place when the key exists and appends otherwise. -/

/-- Python `dict.pop(k)`: removes the entry with key `k`, returning the
value and the remaining dict, or `none` (`KeyError`) if absent. -/
def dictPop {α : Type} (k : String) : List (String × α) → Option (α × List (String × α))
  | [] => none
  | (k', v) :: rest =>
      if k' = k then some (v, rest)
      else (dictPop k rest).map (fun r => (r.1, (k', v) :: r.2))

/-- Python `dict[k] = v`: replaces the value in place when `k` is
present, appends a new entry otherwise. -/
def dictSet {α : Type} (k : String) (v : α) : List (String × α) → List (String × α)
  | [] => [(k, v)]
  | (k', v') :: rest => if k' = k then (k', v) :: rest else (k', v') :: dictSet k v rest

/-- Python `dict[k]` as readable lookup. -/
def dictGet {α : Type} (k : String) : List (String × α) → Option α
  | [] => none
  | (k', v) :: rest => if k' = k then some v else dictGet k rest

/-- The `name` setter: pop the entry under the old name, then assign it
under the new name.  `none` models the `KeyError` when the widget is not
in its parent's mapping. -/
def rename_child {α : Type} (childrens : List (String × α)) (oldName newName : String) :
    Option (List (String × α)) :=
  (dictPop oldName childrens).map (fun r => dictSet newName r.1 r.2)

/-- C9 counterexample: a parent with children `"a" -> 0` and `"b" -> 1`;
renaming widget 0 to the colliding name `"b"` succeeds silently (no
error) and the sibling widget 1 is lost from the mapping. -/
theorem rename_collision_counterexample :
    rename_child [("a", (0 : ℕ)), ("b", 1)] "a" "b" = some [("b", 0)] ∧
    dictGet "b" [("b", (0 : ℕ))] = some 0 := by
  constructor <;> rfl

/-- A key not among the dict's keys looks up to `none`. -/
lemma dictGet_eq_none_of_not_mem {α : Type} {k : String} :
    ∀ {m : List (String × α)}, k ∉ m.map Prod.fst → dictGet k m = none := by
  intro m
  induction m with
  | nil => intro _; rfl
  | cons a rest ih =>
      obtain ⟨k', v⟩ := a
      intro h
      simp only [List.map_cons, List.mem_cons] at h
      push_neg at h
      have hk : k' ≠ k := fun hc => h.1 hc.symm
      simp only [dictGet, if_neg hk]
      exact ih h.2

/-- Setting a key makes it look up to the new value. -/
lemma dictGet_dictSet_self {α : Type} (k : String) (v : α) :
    ∀ (m : List (String × α)), dictGet k (dictSet k v m) = some v := by
  intro m
  induction m with
  | nil => simp [dictSet, dictGet]
  | cons a rest ih =>
      obtain ⟨k', v'⟩ := a
      by_cases h : k' = k
      · simp [dictSet, dictGet, h]
      · simp [dictSet, dictGet, h, ih]

/-- Setting one key leaves lookups of other keys unchanged. -/
lemma dictGet_dictSet_ne {α : Type} {k k' : String} (v : α) (hne : k ≠ k') :
    ∀ (m : List (String × α)), dictGet k (dictSet k' v m) = dictGet k m := by
  have hne' : k' ≠ k := fun h => hne h.symm
  intro m
  induction m with
  | nil => simp [dictSet, dictGet, hne']
  | cons a rest ih =>
      obtain ⟨k0, v0⟩ := a
      by_cases h : k0 = k'
      · have h2 : k0 ≠ k := fun hc => hne' (h ▸ hc)
        simp [dictSet, dictGet, h, h2, hne']
      · by_cases h2 : k0 = k <;> simp [dictSet, dictGet, h, h2, hne, ih]

/-- Specification of `dictPop` on a dict with unique keys that holds the
popped key: it returns the stored value and the remaining entries. -/
lemma dictPop_spec {α : Type} {oldName : String} {w : α} :
    ∀ {m : List (String × α)}, (m.map Prod.fst).Nodup →
      dictGet oldName m = some w →
      ∃ m', dictPop oldName m = some (w, m') ∧
        dictGet oldName m' = none ∧
        (∀ k, k ≠ oldName → dictGet k m' = dictGet k m) := by
  intro m
  induction m with
  | nil => intro _ hget; simp [dictGet] at hget
  | cons a rest ih =>
      obtain ⟨k', v⟩ := a
      intro hnodup hget
      simp only [List.map_cons, List.nodup_cons] at hnodup
      by_cases h : k' = oldName
      · simp only [dictGet, if_pos h] at hget
        obtain rfl : v = w := by simpa using hget
        refine ⟨rest, ?_, ?_, ?_⟩
        · simp [dictPop, h]
        · exact dictGet_eq_none_of_not_mem (h ▸ hnodup.1)
        · intro k hk
          have hk2 : k' ≠ k := fun hc => hk (hc.symm.trans h)
          simp [dictGet, if_neg hk2]
      · simp only [dictGet, if_neg h] at hget
        obtain ⟨m', hpop, hnone, hrest⟩ := ih hnodup.2 hget
        refine ⟨(k', v) :: m', ?_, ?_, ?_⟩
        · simp [dictPop, h, hpop]
        · simp [dictGet, if_neg h, hnone]
        · intro k hk
          by_cases h2 : k' = k <;> simp [dictGet, h2, hrest k hk]

/-- C9 amended: the `name` setter performs no collision check and never
raises when the widget is present in its parent's mapping: the widget's
entry is moved from the old name to the new name (reachable under the
new name, no longer under the old one when the names differ, every
sibling under any other name preserved); in particular, when the new
name collides with an existing sibling, that sibling's entry is silently
overwritten rather than an error being raised. -/
theorem rename_updates_mapping {α : Type} (m : List (String × α))
    (oldName newName : String) (w : α)
    (hnodup : (m.map Prod.fst).Nodup)
    (hold : dictGet oldName m = some w) :
    ∃ m2, rename_child m oldName newName = some m2 ∧
      dictGet newName m2 = some w ∧
      (oldName ≠ newName → dictGet oldName m2 = none) ∧
      (∀ k, k ≠ oldName → k ≠ newName → dictGet k m2 = dictGet k m) := by
  obtain ⟨m', hpop, hnone, hrest⟩ := dictPop_spec hnodup hold
  refine ⟨dictSet newName w m', ?_, ?_, ?_, ?_⟩
  · simp [rename_child, hpop]
  · exact dictGet_dictSet_self newName w m'
  · intro hne
    rw [dictGet_dictSet_ne w hne m']
    exact hnone
  · intro k hkold hknew
    rw [dictGet_dictSet_ne w hknew m']
    exact hrest k hkold

/-- C9 witness: the rename theorem applied to a parent holding children
`"a" -> 0` and `"b" -> 1`, renaming widget 0 to the fresh name `"c"`. -/
theorem rename_updates_mapping_witness :
    ∃ m2, rename_child [("a", (0 : ℕ)), ("b", 1)] "a" "c" = some m2 ∧
      dictGet "c" m2 = some 0 ∧
      ("a" ≠ "c" → dictGet "a" m2 = none) ∧
      (∀ k, k ≠ "a" → k ≠ "c" → dictGet k m2 = dictGet k [("a", 0), ("b", 1)]) :=
  rename_updates_mapping [("a", 0), ("b", 1)] "a" "c" 0 (by decide) (by decide)

/-! ## Action service (pyguilib/services/action_service.py)

`bind_action` appends `(name, callback, events, priority + (1000 if
internal else 0))` after a duplicate-name check; `update` iterates the
bound actions sorted ascending by the stored priority (Python's `sorted`
is stable; modelled with the stable `List.insertionSort`), invokes every
matching callback and stops both the binding loop and the event loop as
soon as a callback returns `SINK`. -/

/-- `ActionResult` enum from action_service.py. -/
inductive ActionResult where
  | SINK
  | PASS
  deriving DecidableEq

/-- A pygame event as the dispatcher sees it: `event.type` and
`event.key` when the attributes exist (`none` models a missing
attribute, which Python turns into `None`). -/
structure Event where
  etype : Option ℤ
  key : Option ℤ
  deriving DecidableEq

/-- One entry of `binds_events_queue`: the stored tuple
`(action_name, callback, events, priority)` where `priority` already
includes the internal offset.  A callback returns
`Optional[ActionResult]`. -/
structure ActionBinding where
  action_name : String
  callback : Event → Option ActionResult
  events : List ℤ
  priority : ℤ

/-- `INTERNAL_PRIORITY_THRESHOLD = 1000`. -/
def INTERNAL_PRIORITY_THRESHOLD : ℤ := 1000

/-- `bind_action` (action_service.py lines 25-48): raises `ValueError`
(`none`) on a duplicate name, else appends the binding with stored
priority `priority + (1000 if internal else 0)`. -/
def bind_action (queue : List ActionBinding) (action_name : String)
    (callback : Event → Option ActionResult) (events : List ℤ)
    (priority : ℤ) (internal : Bool) : Option (List ActionBinding) :=
  if queue.any (fun b => b.action_name = action_name) then none
  else some (queue ++
    [⟨action_name, callback, events,
      priority + (if internal then INTERNAL_PRIORITY_THRESHOLD else 0)⟩])

/-- The matching test of `update` (line 72):
`(event.type if hasattr(...) else None) in events or
(event.key if hasattr(...) else None) in events`
(`None in events` is false for a list of ints). -/
def matches_event (b : ActionBinding) (e : Event) : Bool :=
  (match e.etype with
    | some t => b.events.contains t
    | none => false) ||
  (match e.key with
    | some k => b.events.contains k
    | none => false)

/-- `sorted(binds_events_queue, key=lambda item: item[3])`: the stable
ascending sort by stored priority. -/
def sort_bindings (queue : List ActionBinding) : List ActionBinding :=
  List.insertionSort (fun a b => a.priority ≤ b.priority) queue

/-- The inner loop of `update` for one event: invoke each matching
callback in order; when one returns `SINK`, set `event_handled` and
break.  Returns the names of the invoked callbacks in invocation order
together with the `event_handled` flag. -/
def dispatch_event : List ActionBinding → Event → List String × Bool
  | [], _ => ([], false)
  | b :: rest, e =>
      if matches_event b e then
        if b.callback e = some ActionResult.SINK then ([b.action_name], true)
        else (b.action_name :: (dispatch_event rest e).1, (dispatch_event rest e).2)
      else dispatch_event rest e

/-- `update(events)` (action_service.py lines 61-81): dispatch each
event against the sorted queue; when an event is handled (`SINK`), break
out of the event loop as well, leaving the remaining events of the
frame's batch undispatched.  Returns the invocation trace
`(action_name, event)` in invocation order. -/
def action_update (queue : List ActionBinding) : List Event → List (String × Event)
  | [] => []
  | e :: rest =>
      let r := dispatch_event (sort_bindings queue) e
      if r.2 then r.1.map (fun n => (n, e))
      else r.1.map (fun n => (n, e)) ++ action_update queue rest

/-- A binding on key code 42 with priority 5 whose callback sinks. -/
def sink_binding_5 : ActionBinding := ⟨"five", fun _ => some ActionResult.SINK, [42], 5⟩

/-- A binding on key code 42 with priority 10 whose callback passes. -/
def pass_binding_10 : ActionBinding := ⟨"ten", fun _ => some ActionResult.PASS, [42], 10⟩

/-- An event carrying key code 42 and no type attribute. -/
def key42_event : Event := ⟨none, some 42⟩

/-- C6: bindings are iterated sorted ascending by priority; when a
binding's callback returns `SINK` on an event, no later-sorted binding
is invoked for that event (only the earlier non-sinking matches and the
sinking binding itself appear in the trace) and no remaining event of
the batch is dispatched; in particular, with two bindings on the same
key code with priorities 5 and 10 the priority-5 binding's `SINK`
prevents the priority-10 binding from firing even when the queue lists
the priority-10 binding first, and ends the frame's batch. -/
theorem action_dispatch_sink_semantics :
    (∀ queue : List ActionBinding,
      List.Sorted (fun a b : ActionBinding => a.priority ≤ b.priority) (sort_bindings queue)) ∧
    (∀ (l1 l2 : List ActionBinding) (b : ActionBinding) (e : Event),
      (∀ c ∈ l1, matches_event c e = true → c.callback e ≠ some ActionResult.SINK) →
      matches_event b e = true →
      b.callback e = some ActionResult.SINK →
      dispatch_event (l1 ++ b :: l2) e =
        ((l1.filter (matches_event · e)).map (·.action_name) ++ [b.action_name], true)) ∧
    (∀ (queue : List ActionBinding) (e : Event) (es : List Event),
      (dispatch_event (sort_bindings queue) e).2 = true →
      action_update queue (e :: es) =
        (dispatch_event (sort_bindings queue) e).1.map (fun n => (n, e))) ∧
    action_update [pass_binding_10, sink_binding_5] [key42_event, key42_event] =
      [("five", key42_event)] := by
  refine ⟨?_, ?_, ?_, rfl⟩
  · intro queue
    haveI : IsTotal ActionBinding (fun a b : ActionBinding => a.priority ≤ b.priority) :=
      ⟨fun a b => le_total a.priority b.priority⟩
    haveI : IsTrans ActionBinding (fun a b : ActionBinding => a.priority ≤ b.priority) :=
      ⟨fun _ _ _ hab hbc => le_trans hab hbc⟩
    exact List.sorted_insertionSort _ queue
  · intro l1 l2 b e hl1 hb hsink
    induction l1 with
    | nil => simp [dispatch_event, hb, hsink]
    | cons c rest ih =>
        have hc := hl1 c (List.mem_cons_self c rest)
        have hrest : ∀ c ∈ rest, matches_event c e = true →
            c.callback e ≠ some ActionResult.SINK :=
          fun d hd => hl1 d (List.mem_cons_of_mem c hd)
        by_cases hm : matches_event c e
        · simp [dispatch_event, hm, hc hm, List.filter_cons, ih hrest]
        · simp [dispatch_event, hm, List.filter_cons, ih hrest]
  · intro queue e es hhandled
    simp [action_update, hhandled]

/-- C6 witness: the sink-stopping conjunct applied at a concrete queue
split (prefix with a non-sinking matching binding, then the sinking one)
together with the concrete-trace conjunct. -/
theorem action_dispatch_sink_semantics_witness :
    dispatch_event [pass_binding_10, sink_binding_5] key42_event =
      (["ten", "five"], true) ∧
    action_update [pass_binding_10, sink_binding_5] [key42_event, key42_event] =
      [("five", key42_event)] := by
  constructor
  · have h := action_dispatch_sink_semantics.2.1 [pass_binding_10] []
      sink_binding_5 key42_event
      (by intro c hc hm
          simp only [List.mem_singleton] at hc
          subst hc
          simp [pass_binding_10])
      (by decide) (by simp [sink_binding_5])
    simpa [pass_binding_10, sink_binding_5, matches_event, key42_event] using h
  · exact action_dispatch_sink_semantics.2.2.2

/-- The queue obtained by binding a user action (priority 5, internal
false) and then an internal action (priority 5, internal true), both on
key code 42 with callbacks that return `None` (no `ActionResult`). -/
def c3_queue : Option (List ActionBinding) :=
  (bind_action [] "usr" (fun _ => none) [42] 5 false).bind
    (fun q => bind_action q "int" (fun _ => none) [42] 5 true)

/-- C3: the binds succeed, and dispatching a single key-42 event invokes
the user binding's callback BEFORE the internal binding's callback: the
stored internal priority is `5 + 1000 = 1005` and `update` iterates
sorted ascending, so the internal offset demotes rather than promotes
internal bindings, contradicting the documented intent that higher
priority values (and internal bindings in particular) run first. -/
theorem internal_binding_dispatched_after_user :
    c3_queue.map (fun q => action_update q [key42_event]) =
      some [("usr", key42_event), ("int", key42_event)] := rfl

/-! ## List layout flow pass (pyguilib/components/layouts/pygui_list_layout.py)

`PyGuiListLayout.__layout_order_manager` walks the sorted children once,
maintaining `largest_child_width/height`, `current_row_width/height`
accumulators, and writes a `position` override `UDim2(0, x_offset, 0,
y_offset)` per child.  The embedding folds over the children's absolute
sizes (the only geometry the pass reads) and returns the written
`(x_offset, y_offset)` pairs in child order.  `VerticalAlignment.CENTER`
hits `assert False`, modelled as `none`. -/

/-- Horizontal alignment enum from pygui_layout_style.py. -/
inductive HorizontalAlignment where
  | LEFT
  | CENTER
  | RIGHT
  deriving DecidableEq

/-- Vertical alignment enum from pygui_layout_style.py. -/
inductive VerticalAlignment where
  | TOP
  | CENTER
  | BOTTOM
  deriving DecidableEq

/-- Fill direction enum from pygui_layout_style.py. -/
inductive FillDirection where
  | HORIZONTAL
  | VERTICAL
  deriving DecidableEq

/-- The accumulator state of one flow pass: the `largest_child_*`,
`current_row_*`, `last_row_index`, `current_row_index` variables and the
`(x_offset, y_offset)` pairs already written (one per processed child,
in order). -/
structure LayoutState where
  largestW : ℚ
  largestH : ℚ
  rowW : ℚ
  rowH : ℚ
  lastRow : ℕ
  idx : ℕ
  written : List (ℚ × ℚ)
  deriving DecidableEq

/-- The retroactive re-centre of `HorizontalAlignment.CENTER` (lines
238-239): every already-placed child from `last_row_index` on has its
x-offset shifted left by half the current child's width (the current
child's own retroactive write is immediately overwritten by the final
write of the iteration, so only previously written pairs change). -/
def retro_center (written : List (ℚ × ℚ)) (lastRow : ℕ) (halfW : ℚ) : List (ℚ × ℚ) :=
  written.mapIdx (fun j p => if lastRow ≤ j then (p.1 - halfW, p.2) else p)

/-- One iteration of the flow pass over a child of absolute size
`(w, h)`, from `__layout_order_manager` lines 206-276. -/
def layout_step (ha : HorizontalAlignment) (va : VerticalAlignment)
    (fd : FillDirection) (parentW parentH : ℚ)
    (st : LayoutState) (c : ℚ × ℚ) : Option LayoutState :=
  let w := c.1
  let h := c.2
  let hstep : ℚ × ℚ × ℚ × ℕ × List (ℚ × ℚ) :=
    match ha with
    | .LEFT =>
        if st.rowW + w > parentW then
          (0, w, st.rowH + st.largestH, st.lastRow, st.written)
        else
          (st.rowW, st.rowW + w, st.rowH, st.lastRow, st.written)
    | .CENTER =>
        if st.rowW + w > parentW then
          ((parentW - w) / 2, w, st.rowH + st.largestH, st.idx, st.written)
        else
          ((parentW - w + st.rowW) / 2, st.rowW + w, st.rowH, st.lastRow,
            retro_center st.written st.lastRow (w / 2))
    | .RIGHT =>
        if st.rowW + w > parentW then
          (parentW - w, w, st.rowH + st.largestH, st.lastRow, st.written)
        else
          (parentW - st.rowW - w, st.rowW + w, st.rowH, st.lastRow, st.written)
  match hstep with
  | (xOff, rowW2, rowH2, lastRow2, written2) =>
    match va with
    | .CENTER => none
    | _ =>
      let yOff : ℚ :=
        match va with
        | .TOP => rowH2
        | .BOTTOM => parentH - h - rowH2
        | .CENTER => 0
      let pair : ℚ × ℚ :=
        match fd with
        | .VERTICAL => (yOff, xOff)
        | .HORIZONTAL => (xOff, yOff)
      some
        { largestW := max st.largestW w
          largestH := max st.largestH h
          rowW := rowW2
          rowH := rowH2
          lastRow := lastRow2
          idx := st.idx + 1
          written := written2 ++ [pair] }

/-- The whole flow pass: the container's absolute width/height are
swapped first when the fill direction is vertical (lines 199-200); the
children are then folded in sorted order, and the written
`(x_offset, y_offset)` override pairs are returned in child order
(`none` models the `assert False` of `VerticalAlignment.CENTER`). -/
def list_layout_pass (ha : HorizontalAlignment) (va : VerticalAlignment)
    (fd : FillDirection) (parentW parentH : ℚ)
    (children : List (ℚ × ℚ)) : Option (List (ℚ × ℚ)) :=
  let pw := match fd with | .VERTICAL => parentH | .HORIZONTAL => parentW
  let ph := match fd with | .VERTICAL => parentW | .HORIZONTAL => parentH
  (children.foldlM (layout_step ha va fd pw ph)
      ⟨0, 0, 0, 0, 0, 0, []⟩).map LayoutState.written

/-- C4: LEFT alignment, TOP vertical alignment, horizontal fill, a
container of absolute width 100 and three children of absolute width 40
(with any nonnegative heights, in layout order): the pass writes
position overrides with x-offsets `[0, 40, 0]`, the first two children
on row 1 at y-offset 0 and the third wrapping to a new row whose
y-offset is the largest child height seen in row 1. -/
theorem list_layout_left_wrap (h0 h1 h2 : ℚ) (hh0 : 0 ≤ h0) :
    list_layout_pass .LEFT .TOP .HORIZONTAL 100 200
      [(40, h0), (40, h1), (40, h2)] =
      some [(0, 0), (40, 0), (0, max h0 h1)] := by
  simp only [list_layout_pass, layout_step, retro_center, List.foldlM, bind, Option.bind]
  norm_num [max_eq_right hh0]

/-- C4 witness: the layout theorem at heights 10, 20, 5: the third child
lands at y-offset 20, the tallest height of row 1. -/
theorem list_layout_left_wrap_witness :
    list_layout_pass .LEFT .TOP .HORIZONTAL 100 200
      [(40, 10), (40, 20), (40, 5)] =
      some [(0, 0), (40, 0), (0, max 10 20)] :=
  list_layout_left_wrap 10 20 5 (by norm_num)

/-! ## Quadtree (pyguilib/utilities/quadtree.py)

`Quadtree` nodes have a depth, an integer-coordinate `pygame.Rect`
bound, an object list (capacity 6) and either no quadrants or exactly
four.  `insert` requires the node bound to contain the item's rect; a
full node subdivides and offers the item to all four quadrants (each of
which checks containment independently, so an item straddling the
center lines is accepted by none and silently dropped).  `query`
gathers, from every node whose bound contains the query rect, the stored
items whose own rect contains the query rect. -/

/-- An integer-coordinate rectangle, as `pygame.Rect` stores it. -/
structure QRect where
  x : ℤ
  y : ℤ
  w : ℤ
  h : ℤ
  deriving DecidableEq

/-- `pygame.Rect.contains(other)`: `other` is completely inside `self`
(pygame's C implementation:
`self.x <= o.x and self.y <= o.y and self.x+self.w >= o.x+o.w and
self.y+self.h >= o.y+o.h and self.x+self.w > o.x and self.y+self.h > o.y`). -/
def QRect.containsRect (A B : QRect) : Bool :=
  decide (A.x ≤ B.x) && decide (A.y ≤ B.y) &&
  decide (B.x + B.w ≤ A.x + A.w) && decide (B.y + B.h ≤ A.y + A.h) &&
  decide (B.x < A.x + A.w) && decide (B.y < A.y + A.h)

/-- `pygame.Rect.colliderect` overlap test (used only to state the
claim's non-overlap hypothesis). -/
def QRect.overlaps (A B : QRect) : Bool :=
  decide (A.x < B.x + B.w) && decide (B.x < A.x + A.w) &&
  decide (A.y < B.y + B.h) && decide (B.y < A.y + A.h)

/-- A quadtree item: an identifier standing for the stored widget
reference, plus its (live) rect. -/
structure QItem where
  id : ℕ
  rect : QRect
  deriving DecidableEq

/-- `CAPACITY = 6` from quadtree.py. -/
def CAPACITY : ℕ := 6

/-- `MAX_DEPTH = 10` from quadtree.py. -/
def MAX_DEPTH : ℤ := 10

/-- A quadtree node: `_depth`, `_rect`, `_objects`, and `_quadrants`
(the empty quadrant list is the `leaf` constructor; the four
sub-quadtrees appear in creation order top-left, top-right, bottom-left,
bottom-right). -/
inductive Quadtree where
  | leaf (depth : ℤ) (rect : QRect) (objects : List QItem)
  | parent (depth : ℤ) (rect : QRect) (objects : List QItem)
      (q0 q1 q2 q3 : Quadtree)

/-- `Quadtree.subdivide` (quadtree.py lines 146-159): the center comes
from `pygame.Rect.center` (C integer division `x + w/2`, `y + h/2`,
truncating toward zero); `top_left_* = center - size/2` and the quadrant
sizes `width/2`, `height/2` are Python float divisions (exact, halves of
integers being exactly representable) truncated toward zero by the
`Rect` constructor: `trunc(c - w/2) = (2*c - w).tdiv 2` and
`trunc(w/2) = w.tdiv 2` exactly. -/
def subdivide_rects (r : QRect) : QRect × QRect × QRect × QRect :=
  let cx := r.x + r.w.tdiv 2
  let cy := r.y + r.h.tdiv 2
  let tlx := (2 * cx - r.w).tdiv 2
  let tly := (2 * cy - r.h).tdiv 2
  let hw := r.w.tdiv 2
  let hh := r.h.tdiv 2
  (⟨tlx, tly, hw, hh⟩, ⟨cx, tly, hw, hh⟩, ⟨tlx, cy, hw, hh⟩, ⟨cx, cy, hw, hh⟩)

/-- Inserting into a freshly created (empty, quadrant-less) node of a
subdivision: the capacity test `0 < 6` always passes, so the item is
appended exactly when the bound contains it.  This inlines
`Quadtree.insert` on a fresh leaf (the recursion there terminates
immediately), keeping the main recursion structural. -/
def fresh_insert (depth : ℤ) (r : QRect) (it : QItem) : Quadtree :=
  if r.containsRect it.rect then .leaf depth r [it]
  else .leaf depth r []

/-- `Quadtree.insert` (quadtree.py lines 113-130): only proceeds when
the node bound contains the item's rect; appends while under capacity
(or beyond max depth); otherwise subdivides if needed and inserts into
all four quadrants. -/
def Quadtree.insert : Quadtree → QItem → Quadtree
  | .leaf depth r objs, it =>
    if r.containsRect it.rect then
      if objs.length < CAPACITY ∨ depth > MAX_DEPTH then
        .leaf depth r (objs ++ [it])
      else
        match subdivide_rects r with
        | (r0, r1, r2, r3) =>
            .parent depth r objs
              (fresh_insert (depth + 1) r0 it) (fresh_insert (depth + 1) r1 it)
              (fresh_insert (depth + 1) r2 it) (fresh_insert (depth + 1) r3 it)
    else .leaf depth r objs
  | .parent depth r objs q0 q1 q2 q3, it =>
    if r.containsRect it.rect then
      if objs.length < CAPACITY ∨ depth > MAX_DEPTH then
        .parent depth r (objs ++ [it]) q0 q1 q2 q3
      else
        .parent depth r objs (q0.insert it) (q1.insert it) (q2.insert it) (q3.insert it)
    else .parent depth r objs q0 q1 q2 q3

/-- `Quadtree.query` (quadtree.py lines 161-181): from every node whose
bound contains the query rect, collect the stored items whose rect
contains the query rect, then the quadrants' results in order. -/
def Quadtree.query : Quadtree → QRect → List QItem
  | .leaf _ r objs, rect =>
    if r.containsRect rect then
      objs.filter (fun it => it.rect.containsRect rect)
    else []
  | .parent _ r objs q0 q1 q2 q3, rect =>
    if r.containsRect rect then
      objs.filter (fun it => it.rect.containsRect rect) ++
        (q0.query rect ++ q1.query rect ++ q2.query rect ++ q3.query rect)
    else []

/-- Sanity: `insert` on a fresh empty leaf agrees with `fresh_insert`. -/
lemma insert_fresh_leaf (depth : ℤ) (r : QRect) (it : QItem) :
    Quadtree.insert (.leaf depth r []) it = fresh_insert depth r it := by
  by_cases h : r.containsRect it.rect <;>
    simp [Quadtree.insert, fresh_insert, h, CAPACITY]

/-- The root quadtree over a given bound (`Quadtree(0, rect)`). -/
def quadtree_root (r : QRect) : Quadtree := .leaf 0 r []

/-- Bound of the counterexample root. -/
def cexRoot : QRect := ⟨0, 0, 100, 100⟩

/-- Six small pairwise non-overlapping items filling the root capacity. -/
def cexSmallItems : List QItem :=
  [⟨1, ⟨0, 0, 5, 5⟩⟩, ⟨2, ⟨10, 0, 5, 5⟩⟩, ⟨3, ⟨20, 0, 5, 5⟩⟩,
   ⟨4, ⟨30, 0, 5, 5⟩⟩, ⟨5, ⟨0, 10, 5, 5⟩⟩, ⟨6, ⟨10, 10, 5, 5⟩⟩]

/-- A seventh item whose rect straddles the subdivision center lines. -/
def cexStraddler : QItem := ⟨7, ⟨40, 40, 20, 20⟩⟩

/-- All seven counterexample items, in insertion order. -/
def cexItems : List QItem := cexSmallItems ++ [cexStraddler]

/-- C2 counterexample: seven pairwise non-overlapping items, all fully
contained in the root bound `(0,0,100,100)` with positive extents;
after inserting all of them, querying the straddling seventh item's own
rect returns the empty list — the item was silently dropped when the
full root subdivided (no quadrant contains its rect), so it is omitted,
refuting the claim at `N = 7`. -/
theorem quadtree_omission_counterexample :
    (cexItems.Pairwise (fun a b => a.rect.overlaps b.rect = false)) ∧
    (∀ it ∈ cexItems, cexRoot.containsRect it.rect = true ∧
      0 < it.rect.w ∧ 0 < it.rect.h) ∧
    (cexItems.foldl Quadtree.insert (quadtree_root cexRoot)).query
      cexStraddler.rect = [] := by
  refine ⟨by decide, by decide, by decide⟩

/-- Folding `insert` over at most `CAPACITY` contained items, starting
from a quadrant-less node with room for all of them, just appends them
in order. -/
lemma foldl_insert_small (r : QRect) :
    ∀ (items : List QItem) (depth : ℤ) (objs : List QItem),
      objs.length + items.length ≤ CAPACITY →
      (∀ it ∈ items, r.containsRect it.rect = true) →
      items.foldl Quadtree.insert (.leaf depth r objs) =
        .leaf depth r (objs ++ items) := by
  intro items
  induction items with
  | nil => intro depth objs _ _; simp
  | cons a rest ih =>
      intro depth objs hlen hcont
      simp only [List.length_cons] at hlen
      have ha : r.containsRect a.rect = true := hcont a (List.mem_cons_self a rest)
      have hroom : objs.length < CAPACITY := by omega
      have step : Quadtree.insert (.leaf depth r objs) a =
          .leaf depth r (objs ++ [a]) := by
        simp [Quadtree.insert, ha, hroom]
      calc (a :: rest).foldl Quadtree.insert (.leaf depth r objs)
          = rest.foldl Quadtree.insert (.leaf depth r (objs ++ [a])) := by
            simp [step]
        _ = .leaf depth r ((objs ++ [a]) ++ rest) := by
            refine ih depth (objs ++ [a]) ?_ ?_
            · simp only [List.length_append, List.length_cons, List.length_nil]
              omega
            · exact fun it hit => hcont it (List.mem_cons_of_mem a hit)
        _ = .leaf depth r (objs ++ a :: rest) := by simp

/-- A rect with positive extents contains itself. -/
lemma containsRect_self {r : QRect} (hw : 0 < r.w) (hh : 0 < r.h) :
    r.containsRect r = true := by
  simp only [QRect.containsRect, Bool.and_eq_true, decide_eq_true_eq]
  omega

/-- C2 amended: for up to `CAPACITY` (6) items with pairwise
non-overlapping positive-extent rects, each fully contained in the root
bound, every inserted item is returned (at least once) when the
quadtree is queried with that item's own rect.  (With more items the
root subdivides and an item straddling the center lines is dropped, as
the counterexample shows.) -/
theorem quadtree_query_returns_item (root : QRect) (items : List QItem)
    (hlen : items.length ≤ CAPACITY)
    (hdisj : items.Pairwise (fun a b => a.rect.overlaps b.rect = false))
    (hpos : ∀ it ∈ items, 0 < it.rect.w ∧ 0 < it.rect.h)
    (hcont : ∀ it ∈ items, root.containsRect it.rect = true) :
    ∀ it ∈ items,
      it ∈ (items.foldl Quadtree.insert (quadtree_root root)).query it.rect := by
  intro it hit
  have hfold : items.foldl Quadtree.insert (quadtree_root root) =
      .leaf 0 root items := by
    have := foldl_insert_small root items 0 [] (by simpa using hlen) hcont
    simpa [quadtree_root] using this
  rw [hfold]
  have hself : it.rect.containsRect it.rect = true :=
    containsRect_self (hpos it hit).1 (hpos it hit).2
  simp [Quadtree.query, hcont it hit, List.mem_filter, hit, hself]

/-- C2 witness: the amended theorem applied to two concrete items in
the root `(0,0,100,100)`; both are returned by their own-rect queries. -/
theorem quadtree_query_returns_item_witness :
    (⟨1, ⟨0, 0, 5, 5⟩⟩ : QItem) ∈
      (([⟨1, ⟨0, 0, 5, 5⟩⟩, ⟨2, ⟨10, 0, 5, 5⟩⟩] : List QItem).foldl
        Quadtree.insert (quadtree_root ⟨0, 0, 100, 100⟩)).query ⟨0, 0, 5, 5⟩ ∧
    (⟨2, ⟨10, 0, 5, 5⟩⟩ : QItem) ∈
      (([⟨1, ⟨0, 0, 5, 5⟩⟩, ⟨2, ⟨10, 0, 5, 5⟩⟩] : List QItem).foldl
        Quadtree.insert (quadtree_root ⟨0, 0, 100, 100⟩)).query ⟨10, 0, 5, 5⟩ := by
  constructor
  · exact quadtree_query_returns_item ⟨0, 0, 100, 100⟩
      [⟨1, ⟨0, 0, 5, 5⟩⟩, ⟨2, ⟨10, 0, 5, 5⟩⟩] (by decide) (by decide)
      (by decide) (by decide) ⟨1, ⟨0, 0, 5, 5⟩⟩ (by decide)
  · exact quadtree_query_returns_item ⟨0, 0, 100, 100⟩
      [⟨1, ⟨0, 0, 5, 5⟩⟩, ⟨2, ⟨10, 0, 5, 5⟩⟩] (by decide) (by decide)
      (by decide) (by decide) ⟨2, ⟨10, 0, 5, 5⟩⟩ (by decide)

/-! ## Easing curves (pyguilib/services/tween_service.py lines 66-214)

The 31 easing functions (`TweenType.LINEAR`'s `lambda alpha: alpha` plus
the 30 named curves), embedded over the reals: `math.cos/sin/sqrt/pi`
become `Real.cos/sin/sqrt/pi`, `math.pow` with a literal integer
exponent becomes monoid `^`, and `math.pow(2, e)` with a real exponent
becomes real exponentiation `(2 : ℝ) ^ (e : ℝ)`. -/

/-- `TweenType.LINEAR`: `lambda alpha: alpha`. -/
noncomputable def linear (alpha : ℝ) : ℝ := alpha

/-- `sine_in`. -/
noncomputable def sine_in (alpha : ℝ) : ℝ := 1 - Real.cos (alpha * Real.pi / 2)

/-- `sine_out`. -/
noncomputable def sine_out (alpha : ℝ) : ℝ := Real.sin (alpha * Real.pi / 2)

/-- `sine_in_out`. -/
noncomputable def sine_in_out (alpha : ℝ) : ℝ := -(Real.cos (Real.pi * alpha) - 1) / 2

/-- `quad_in`. -/
noncomputable def quad_in (alpha : ℝ) : ℝ := alpha * alpha

/-- `quad_out`. -/
noncomputable def quad_out (alpha : ℝ) : ℝ := 1 - (1 - alpha) * (1 - alpha)

/-- `quad_in_out`. -/
noncomputable def quad_in_out (alpha : ℝ) : ℝ :=
  if alpha < 0.5 then 2 * alpha * alpha else 1 - (-2 * alpha + 2) ^ (2 : ℕ) / 2

/-- `cubic_in`. -/
noncomputable def cubic_in (alpha : ℝ) : ℝ := alpha * alpha * alpha

/-- `cubic_out`. -/
noncomputable def cubic_out (alpha : ℝ) : ℝ := 1 - (1 - alpha) ^ (3 : ℕ)

/-- `cubic_in_out`. -/
noncomputable def cubic_in_out (alpha : ℝ) : ℝ :=
  if alpha < 0.5 then 4 * alpha * alpha * alpha
  else 1 - (-2 * alpha + 2) ^ (3 : ℕ) / 2

/-- `quart_in`. -/
noncomputable def quart_in (alpha : ℝ) : ℝ := alpha * alpha * alpha * alpha

/-- `quart_out`. -/
noncomputable def quart_out (alpha : ℝ) : ℝ := 1 - (1 - alpha) ^ (4 : ℕ)

/-- `quart_in_out`. -/
noncomputable def quart_in_out (alpha : ℝ) : ℝ :=
  if alpha < 0.5 then 8 * alpha * alpha * alpha * alpha
  else 1 - (-2 * alpha + 2) ^ (4 : ℕ) / 2

/-- `quint_in`. -/
noncomputable def quint_in (alpha : ℝ) : ℝ := alpha * alpha * alpha * alpha * alpha

/-- `quint_out`. -/
noncomputable def quint_out (alpha : ℝ) : ℝ := 1 - (1 - alpha) ^ (5 : ℕ)

/-- `quint_in_out`. -/
noncomputable def quint_in_out (alpha : ℝ) : ℝ :=
  if alpha < 0.5 then 16 * alpha * alpha * alpha * alpha * alpha
  else 1 - (-2 * alpha + 2) ^ (5 : ℕ) / 2

/-- `expo_in`. -/
noncomputable def expo_in (alpha : ℝ) : ℝ :=
  if alpha = 0 then 0 else (2 : ℝ) ^ (10 * alpha - 10)

/-- `expo_out`. -/
noncomputable def expo_out (alpha : ℝ) : ℝ :=
  if alpha = 1 then 1 else 1 - (2 : ℝ) ^ (-10 * alpha)

/-- `expo_in_out` (the last branch's exponent is the source's literal
`-20 * alpha * 2 + 10`). -/
noncomputable def expo_in_out (alpha : ℝ) : ℝ :=
  if alpha = 0 then 0
  else if alpha = 1 then 1
  else if alpha < 0.5 then (2 : ℝ) ^ (20 * alpha - 10) / 2
  else (2 - (2 : ℝ) ^ (-20 * alpha * 2 + 10)) / 2

/-- `circ_in`. -/
noncomputable def circ_in (alpha : ℝ) : ℝ :=
  1 - Real.sqrt (1 - alpha ^ (2 : ℕ))

/-- `circ_out`. -/
noncomputable def circ_out (alpha : ℝ) : ℝ :=
  Real.sqrt (1 - (alpha - 1) ^ (2 : ℕ))

/-- `circ_in_out`. -/
noncomputable def circ_in_out (alpha : ℝ) : ℝ :=
  if alpha < 0.5 then (1 - Real.sqrt (1 - (2 * alpha) ^ (2 : ℕ))) / 2
  else (Real.sqrt (1 - (-2 * alpha + 2) ^ (2 : ℕ)) + 1) / 2

/-- `back_in` (overshoot constant `bounce = 1.70158`). -/
noncomputable def back_in (alpha : ℝ) : ℝ :=
  let bounce : ℝ := 1.70158
  (bounce + 1) * alpha * alpha * alpha - bounce * alpha * alpha

/-- `back_out`. -/
noncomputable def back_out (alpha : ℝ) : ℝ :=
  let bounce : ℝ := 1.70158
  1 + (bounce + 1) * (alpha - 1) ^ (3 : ℕ) + bounce * (alpha - 1) ^ (2 : ℕ)

/-- `back_in_out` (constant `1.70158 * 1.525`). -/
noncomputable def back_in_out (alpha : ℝ) : ℝ :=
  let bounce : ℝ := 1.70158 * 1.525
  if alpha < 0.5 then
    ((2 * alpha) ^ (2 : ℕ) * ((bounce + 1) * 2 * alpha - bounce)) / 2
  else
    ((2 * alpha - 2) ^ (2 : ℕ) * ((bounce + 1) * (alpha * 2 - 2) + bounce) + 2) / 2

/-- `elastic_in` (period constant `2π/3`). -/
noncomputable def elastic_in (alpha : ℝ) : ℝ :=
  let elasticity : ℝ := 2 * Real.pi / 3
  if alpha = 0 then 0
  else if alpha = 1 then 1
  else -(2 : ℝ) ^ (10 * alpha - 10) * Real.sin ((alpha * 10 - 10.75) * elasticity)

/-- `elastic_out`. -/
noncomputable def elastic_out (alpha : ℝ) : ℝ :=
  let elasticity : ℝ := 2 * Real.pi / 3
  if alpha = 0 then 0
  else if alpha = 1 then 1
  else (2 : ℝ) ^ (-10 * alpha) * Real.sin ((alpha * 10 - 0.75) * elasticity) + 1

/-- `elastic_in_out` (period constant `2π/4.5`). -/
noncomputable def elastic_in_out (alpha : ℝ) : ℝ :=
  let elasticity : ℝ := 2 * Real.pi / 4.5
  if alpha = 0 then 0
  else if alpha = 1 then 1
  else if alpha < 0.5 then
    -((2 : ℝ) ^ (20 * alpha - 10) * Real.sin ((20 * alpha - 11.125) * elasticity)) / 2
  else
    ((2 : ℝ) ^ (-20 * alpha + 10) * Real.sin ((20 * alpha - 11.125) * elasticity)) / 2 + 1

/-- `bounce_out` (4-segment piecewise parabola, amplitude `7.5625`,
duration `2.75`). -/
noncomputable def bounce_out (alpha : ℝ) : ℝ :=
  let amplitude : ℝ := 7.5625
  let duration : ℝ := 2.75
  if alpha < 1 / duration then amplitude * alpha * alpha
  else if alpha < 2 / duration then
    let a : ℝ := alpha - 1.5 / duration
    amplitude * a * a + 0.75
  else if alpha < 2.5 / duration then
    let a : ℝ := alpha - 2.25 / duration
    amplitude * a * a + 0.9375
  else
    let a : ℝ := alpha - 2.625 / duration
    amplitude * a * a + 0.984375

/-- `bounce_in`. -/
noncomputable def bounce_in (alpha : ℝ) : ℝ := 1 - bounce_out (1 - alpha)

/-- `bounce_in_out`. -/
noncomputable def bounce_in_out (alpha : ℝ) : ℝ :=
  if alpha < 0.5 then (1 - bounce_out (1 - 2 * alpha)) / 2
  else (1 + bounce_out (2 * alpha - 1)) / 2

/-- Endpoints of `linear`. -/
lemma linear_endpoints : linear 0 = 0 ∧ linear 1 = 1 := by
  constructor <;> norm_num [linear]

/-- Endpoints of `sine_in`. -/
lemma sine_in_endpoints : sine_in 0 = 0 ∧ sine_in 1 = 1 := by
  constructor <;> norm_num [sine_in, Real.cos_pi_div_two]

/-- Endpoints of `sine_out`. -/
lemma sine_out_endpoints : sine_out 0 = 0 ∧ sine_out 1 = 1 := by
  constructor <;> norm_num [sine_out, Real.sin_pi_div_two]

/-- Endpoints of `sine_in_out`. -/
lemma sine_in_out_endpoints : sine_in_out 0 = 0 ∧ sine_in_out 1 = 1 := by
  constructor <;> norm_num [sine_in_out, Real.cos_pi]

/-- Endpoints of `quad_in`. -/
lemma quad_in_endpoints : quad_in 0 = 0 ∧ quad_in 1 = 1 := by
  constructor <;> norm_num [quad_in]

/-- Endpoints of `quad_out`. -/
lemma quad_out_endpoints : quad_out 0 = 0 ∧ quad_out 1 = 1 := by
  constructor <;> norm_num [quad_out]

/-- Endpoints of `quad_in_out`. -/
lemma quad_in_out_endpoints : quad_in_out 0 = 0 ∧ quad_in_out 1 = 1 := by
  constructor <;> norm_num [quad_in_out]

/-- Endpoints of `cubic_in`. -/
lemma cubic_in_endpoints : cubic_in 0 = 0 ∧ cubic_in 1 = 1 := by
  constructor <;> norm_num [cubic_in]

/-- Endpoints of `cubic_out`. -/
lemma cubic_out_endpoints : cubic_out 0 = 0 ∧ cubic_out 1 = 1 := by
  constructor <;> norm_num [cubic_out]

/-- Endpoints of `cubic_in_out`. -/
lemma cubic_in_out_endpoints : cubic_in_out 0 = 0 ∧ cubic_in_out 1 = 1 := by
  constructor <;> norm_num [cubic_in_out]

/-- Endpoints of `quart_in`. -/
lemma quart_in_endpoints : quart_in 0 = 0 ∧ quart_in 1 = 1 := by
  constructor <;> norm_num [quart_in]

/-- Endpoints of `quart_out`. -/
lemma quart_out_endpoints : quart_out 0 = 0 ∧ quart_out 1 = 1 := by
  constructor <;> norm_num [quart_out]

/-- Endpoints of `quart_in_out`. -/
lemma quart_in_out_endpoints : quart_in_out 0 = 0 ∧ quart_in_out 1 = 1 := by
  constructor <;> norm_num [quart_in_out]

/-- Endpoints of `quint_in`. -/
lemma quint_in_endpoints : quint_in 0 = 0 ∧ quint_in 1 = 1 := by
  constructor <;> norm_num [quint_in]

/-- Endpoints of `quint_out`. -/
lemma quint_out_endpoints : quint_out 0 = 0 ∧ quint_out 1 = 1 := by
  constructor <;> norm_num [quint_out]

/-- Endpoints of `quint_in_out`. -/
lemma quint_in_out_endpoints : quint_in_out 0 = 0 ∧ quint_in_out 1 = 1 := by
  constructor <;> norm_num [quint_in_out]

/-- Endpoints of `expo_in`. -/
lemma expo_in_endpoints : expo_in 0 = 0 ∧ expo_in 1 = 1 := by
  constructor
  · norm_num [expo_in]
  · norm_num [expo_in]

/-- Endpoints of `expo_out`. -/
lemma expo_out_endpoints : expo_out 0 = 0 ∧ expo_out 1 = 1 := by
  constructor
  · norm_num [expo_out]
  · norm_num [expo_out]

/-- Endpoints of `expo_in_out`. -/
lemma expo_in_out_endpoints : expo_in_out 0 = 0 ∧ expo_in_out 1 = 1 := by
  constructor <;> norm_num [expo_in_out]

/-- Endpoints of `circ_in`. -/
lemma circ_in_endpoints : circ_in 0 = 0 ∧ circ_in 1 = 1 := by
  constructor <;> norm_num [circ_in, Real.sqrt_one, Real.sqrt_zero]

/-- Endpoints of `circ_out`. -/
lemma circ_out_endpoints : circ_out 0 = 0 ∧ circ_out 1 = 1 := by
  constructor <;> norm_num [circ_out, Real.sqrt_one, Real.sqrt_zero]

/-- Endpoints of `circ_in_out`. -/
lemma circ_in_out_endpoints : circ_in_out 0 = 0 ∧ circ_in_out 1 = 1 := by
  constructor <;> norm_num [circ_in_out, Real.sqrt_one, Real.sqrt_zero]

/-- Endpoints of `back_in`. -/
lemma back_in_endpoints : back_in 0 = 0 ∧ back_in 1 = 1 := by
  constructor <;> norm_num [back_in]

/-- Endpoints of `back_out`. -/
lemma back_out_endpoints : back_out 0 = 0 ∧ back_out 1 = 1 := by
  constructor <;> norm_num [back_out]

/-- Endpoints of `back_in_out`. -/
lemma back_in_out_endpoints : back_in_out 0 = 0 ∧ back_in_out 1 = 1 := by
  constructor <;> norm_num [back_in_out]

/-- Endpoints of `elastic_in`. -/
lemma elastic_in_endpoints : elastic_in 0 = 0 ∧ elastic_in 1 = 1 := by
  constructor <;> norm_num [elastic_in]

/-- Endpoints of `elastic_out`. -/
lemma elastic_out_endpoints : elastic_out 0 = 0 ∧ elastic_out 1 = 1 := by
  constructor <;> norm_num [elastic_out]

/-- Endpoints of `elastic_in_out`. -/
lemma elastic_in_out_endpoints : elastic_in_out 0 = 0 ∧ elastic_in_out 1 = 1 := by
  constructor <;> norm_num [elastic_in_out]

/-- Endpoints of `bounce_out`. -/
lemma bounce_out_endpoints : bounce_out 0 = 0 ∧ bounce_out 1 = 1 := by
  constructor <;> norm_num [bounce_out]

/-- Endpoints of `bounce_in`. -/
lemma bounce_in_endpoints : bounce_in 0 = 0 ∧ bounce_in 1 = 1 := by
  constructor
  · simp only [bounce_in, sub_zero, bounce_out_endpoints.2, sub_self]
  · norm_num [bounce_in, bounce_out]

/-- Endpoints of `bounce_in_out`. -/
lemma bounce_in_out_endpoints : bounce_in_out 0 = 0 ∧ bounce_in_out 1 = 1 := by
  constructor
  · have h1 : bounce_out 1 = 1 := bounce_out_endpoints.2
    norm_num [bounce_in_out, h1]
  · have h1 : bounce_out 1 = 1 := bounce_out_endpoints.2
    norm_num [bounce_in_out, h1]

/-- C7: every one of the 31 easing functions `f` (linear plus the
sine/quad/cubic/quart/quint/expo/circ/back/elastic/bounce in/out/in-out
families) satisfies `f(0) = 0` and `f(1) = 1`. -/
theorem easing_boundary_law :
    (linear 0 = 0 ∧ linear 1 = 1) ∧
    (sine_in 0 = 0 ∧ sine_in 1 = 1) ∧
    (sine_out 0 = 0 ∧ sine_out 1 = 1) ∧
    (sine_in_out 0 = 0 ∧ sine_in_out 1 = 1) ∧
    (quad_in 0 = 0 ∧ quad_in 1 = 1) ∧
    (quad_out 0 = 0 ∧ quad_out 1 = 1) ∧
    (quad_in_out 0 = 0 ∧ quad_in_out 1 = 1) ∧
    (cubic_in 0 = 0 ∧ cubic_in 1 = 1) ∧
    (cubic_out 0 = 0 ∧ cubic_out 1 = 1) ∧
    (cubic_in_out 0 = 0 ∧ cubic_in_out 1 = 1) ∧
    (quart_in 0 = 0 ∧ quart_in 1 = 1) ∧
    (quart_out 0 = 0 ∧ quart_out 1 = 1) ∧
    (quart_in_out 0 = 0 ∧ quart_in_out 1 = 1) ∧
    (quint_in 0 = 0 ∧ quint_in 1 = 1) ∧
    (quint_out 0 = 0 ∧ quint_out 1 = 1) ∧
    (quint_in_out 0 = 0 ∧ quint_in_out 1 = 1) ∧
    (expo_in 0 = 0 ∧ expo_in 1 = 1) ∧
    (expo_out 0 = 0 ∧ expo_out 1 = 1) ∧
    (expo_in_out 0 = 0 ∧ expo_in_out 1 = 1) ∧
    (circ_in 0 = 0 ∧ circ_in 1 = 1) ∧
    (circ_out 0 = 0 ∧ circ_out 1 = 1) ∧
    (circ_in_out 0 = 0 ∧ circ_in_out 1 = 1) ∧
    (back_in 0 = 0 ∧ back_in 1 = 1) ∧
    (back_out 0 = 0 ∧ back_out 1 = 1) ∧
    (back_in_out 0 = 0 ∧ back_in_out 1 = 1) ∧
    (elastic_in 0 = 0 ∧ elastic_in 1 = 1) ∧
    (elastic_out 0 = 0 ∧ elastic_out 1 = 1) ∧
    (elastic_in_out 0 = 0 ∧ elastic_in_out 1 = 1) ∧
    (bounce_in 0 = 0 ∧ bounce_in 1 = 1) ∧
    (bounce_out 0 = 0 ∧ bounce_out 1 = 1) ∧
    (bounce_in_out 0 = 0 ∧ bounce_in_out 1 = 1) :=
  ⟨linear_endpoints, sine_in_endpoints, sine_out_endpoints, sine_in_out_endpoints,
   quad_in_endpoints, quad_out_endpoints, quad_in_out_endpoints,
   cubic_in_endpoints, cubic_out_endpoints, cubic_in_out_endpoints,
   quart_in_endpoints, quart_out_endpoints, quart_in_out_endpoints,
   quint_in_endpoints, quint_out_endpoints, quint_in_out_endpoints,
   expo_in_endpoints, expo_out_endpoints, expo_in_out_endpoints,
   circ_in_endpoints, circ_out_endpoints, circ_in_out_endpoints,
   back_in_endpoints, back_out_endpoints, back_in_out_endpoints,
   elastic_in_endpoints, elastic_out_endpoints, elastic_in_out_endpoints,
   bounce_in_endpoints, bounce_out_endpoints, bounce_in_out_endpoints⟩

end PyGuiLib
